import Mathlib

/-!
A shallow embedding of the Lightning web component
`force-app/main/default/lwc/serviceRequestForm/serviceRequestForm.js`
(class `ServiceRequestForm`), and the properties of it that are proved.

* The tracked fields of the component are the fields of `State`; the JavaScript
  value `null` of the two caches is `none`.
* Every method is a function from the state before the call to the state after
  it, paired with the list of observable effects it performed, in order
  (HTTP calls, toast events, validity calls on the inputs, console output).
* What the environment answers (the HTTP responses, the validity of the bound
  inputs) is an argument of the method that consumes it.
* `String.prototype.toLowerCase` and `Date.prototype.toLocaleDateString` are
  host built-ins; they are the two fields of `Host`, and every general result
  below holds for every host.
* The fields of a record are strings or absent.  The body of a response is
  unparseable, the JSON value `null`, an array of records, or an object with an
  optional string `message`.
-/

namespace ServiceRequestForm

/-! ## Data model -/

/-- A service request record as the component holds it.  A field that is
absent (or `null`) in the JSON object is `none`.  The last two fields are the
ones `loadServiceRequests` adds. -/
structure Request where
  Subject__c : Option String
  Description__c : Option String
  Status__c : Option String
  CreatedDate : Option String
  statusClass : Option String
  CreatedDateFormatted : Option String
deriving DecidableEq, Repr

/-- The host built-ins the component calls. -/
structure Host where
  /-- Models `String.prototype.toLowerCase`. -/
  toLowerCase : String → String
  /-- Models `new Date(v).toLocaleDateString('en-US', options)` on the value of
  `CreatedDate`. -/
  toLocaleDateString : Option String → String

/-- The tracked fields of the component, and `sessionId`. -/
structure State where
  subject : String
  description : String
  serviceRequests : Option (List Request)
  allServiceRequests : Option (List Request)
  isLoading : Bool
  isSubmitting : Bool
  searchTerm : String
  sessionId : Option String
deriving DecidableEq, Repr

/-- The field initialisers of the class (lines 9-17). -/
def State.initial : State :=
  { subject := ""
    description := ""
    serviceRequests := some []
    allServiceRequests := some []
    isLoading := false
    isSubmitting := false
    searchTerm := ""
    sessionId := none }

/-- The second argument of `showToast`. -/
inductive ToastType where
  | success
  | error
deriving DecidableEq, Repr

/-- The `ShowToastEvent` that `showToast` dispatches. -/
structure Toast where
  title : String
  message : String
  variant : ToastType
deriving DecidableEq, Repr

/-- A parsed JSON value, as far as the component tells values apart. -/
inductive Json where
  /-- The value `null`: reading a property of it throws a `TypeError`. -/
  | null
  /-- An array of records. -/
  | requests (data : List Request)
  /-- An object with an optional `message`.  Without a `message` it also stands
  for every other value that is neither `null` nor an array of records (a
  number, a string, a boolean, an array with a `null` element): reading
  `message` of it gives `undefined`, and the `data.map` call of
  `loadServiceRequests` throws on it. -/
  | object (message : Option String)
deriving DecidableEq, Repr

/-- The body of an HTTP response, as `response.json()` sees it. -/
inductive Body where
  /-- The body is not JSON: `response.json()` rejects. -/
  | unparseable
  /-- The JSON value `null`. -/
  | null
  /-- A JSON array of records. -/
  | requests (data : List Request)
  /-- A JSON object with an optional `message`. -/
  | object (message : Option String)
deriving DecidableEq, Repr

/-- An HTTP response. -/
structure Response where
  status : Nat
  body : Body
deriving DecidableEq, Repr

/-- The getter `Response.ok` of the fetch API: the status is in 200-299. -/
def Response.ok (response : Response) : Bool :=
  decide (200 ≤ response.status ∧ response.status ≤ 299)

/-- The outcome of one `fetch` call. -/
inductive FetchResult where
  /-- The promise rejects (network error). -/
  | rejected (error : String)
  /-- The promise resolves with a response. -/
  | resolved (response : Response)
deriving DecidableEq, Repr

/-- One bound input (`lightning-input` or `lightning-textarea`) of the
template: its name and what its validity calls answer. -/
structure InputCmp where
  name : String
  valid : Bool
deriving DecidableEq, Repr

/-- The observable effects of the component. -/
inductive Effect where
  /-- A `fetch(REST_API_BASE_URL, ...)` call with its `Authorization` header and
  its body, together with what it was answered. -/
  | fetch (method : String) (authorization : String)
      (body : Option (String × String)) (result : FetchResult)
  /-- A dispatched `ShowToastEvent`. -/
  | toast (t : Toast)
  /-- A call of `inputCmp.reportValidity()`. -/
  | reportValidity (name : String)
  /-- A call of `inputCmp.checkValidity()`. -/
  | checkValidity (name : String)
  /-- A call of `console.log`. -/
  | consoleLog
  /-- A call of `console.error`. -/
  | consoleError
deriving DecidableEq, Repr

/-! ## Helpers for JavaScript semantics -/

/-- Models `haystack.includes(needle)`. -/
def includes (haystack needle : String) : Bool :=
  decide (needle.data <:+: haystack.data)

/-- Models `v || fallback` for a string-or-absent `v`: an absent or empty `v` is
falsy. -/
def orElse (v : Option String) (fallback : String) : String :=
  match v with
  | some t => if t = "" then fallback else t
  | none => fallback

/-- Models `'OAuth  ' + this.sessionId`. -/
def authorization (s : State) : String :=
  "OAuth  " ++ s.sessionId.getD "undefined"

/-- Models `await response.json()`: `none` when the promise rejects, the parsed
value otherwise. -/
def Body.json (body : Body) : Option Json :=
  match body with
  | .unparseable => none
  | .null => some .null
  | .requests data => some (.requests data)
  | .object message => some (.object message)

/-- Models the property read `data.message` on a parsed value: `none` when the
read throws (the value is `null`), otherwise the message, if there is one. -/
def Json.message (data : Json) : Option (Option String) :=
  match data with
  | .null => none
  | .requests _ => some none
  | .object message => some message

/-! ## The methods -/

/-- Models `showToast(message, type)` (lines 209-216). -/
def showToast (message : String) (type : ToastType) : Effect :=
  .toast
    { title := if type = .success then "Success" else "Error"
      message := message
      variant := type }

/-- Models `statusClass(request)` (lines 35-51). -/
def statusClass (request : Request) : String :=
  match request.Status__c with
  | some "New" => "slds-text-color_error"
  | some "In Progress" => "slds-text-color_warning"
  | some "Closed" => "slds-text-color_success"
  | _ => ""

/-- The callback of `data.map` in `loadServiceRequests` (lines 72-83). -/
def processRequest (h : Host) (request : Request) : Request :=
  { request with
    statusClass := some (statusClass request)
    CreatedDateFormatted := some (h.toLocaleDateString request.CreatedDate) }

/-- The `catch` block of `loadServiceRequests` (lines 93-97). -/
def loadCatch (s : State) (fx : List Effect) : State × List Effect :=
  ({ s with serviceRequests := none, allServiceRequests := none },
    fx ++ [.consoleError, showToast "Error:  $\x7berror\x7d" .error])

/-- Models `loadServiceRequests()` (lines 57-101); `get` is what the GET call is
answered. -/
def loadServiceRequests (h : Host) (get : FetchResult) (s : State) :
    State × List Effect :=
  let s := { s with isLoading := true }
  let fx := [Effect.fetch "GET" (authorization s) none get]
  let r : State × List Effect :=
    match get with
    | .rejected _ => loadCatch s fx
    | .resolved response =>
      if response.ok then
        match response.body.json with
        | none => loadCatch s fx
        | some (.requests data) =>
          let processedData := data.map (processRequest h)
          let s := { s with allServiceRequests := some processedData }
          let s := { s with serviceRequests := some processedData }
          (s, fx ++ [.consoleLog, showToast "Requests loaded successfully." .success])
        | some _ => loadCatch s (fx ++ [.consoleLog])
      else
        let s := { s with serviceRequests := none }
        let s := { s with allServiceRequests := none }
        match response.body.json with
        | none => loadCatch s fx
        | some _ =>
          (s, fx ++ [showToast
            "Error loading requests: $\x7bresponse.status\x7d $\x7berrorData.message\x7d"
            .error])
  ({ r.1 with isLoading := false }, r.2)

/-- Models `handleInputChange(event)` (lines 104-111). -/
def handleInputChange (name value : String) (s : State) : State :=
  if name = "subject" then { s with subject := value }
  else if name = "description" then { s with description := value }
  else s

/-- The callback of `filter` in `onClickSearch` (lines 135-139). -/
def requestMatches (h : Host) (lowerCaseSearchTerm : String) (request : Request) : Bool :=
  let subjectMatches :=
    match request.Subject__c with
    | none => false
    | some v => if v = "" then false else includes (h.toLowerCase v) lowerCaseSearchTerm
  let descriptionMatches :=
    match request.Description__c with
    | none => false
    | some v => if v = "" then false else includes (h.toLowerCase v) lowerCaseSearchTerm
  subjectMatches || descriptionMatches

/-- Models `onClickSearch()` (lines 127-144). -/
def onClickSearch (h : Host) (s : State) : State :=
  match s.allServiceRequests with
  | none => s
  | some all =>
    let lowerCaseSearchTerm := h.toLowerCase s.searchTerm
    if lowerCaseSearchTerm ≠ "" then
      { s with serviceRequests := some (all.filter (requestMatches h lowerCaseSearchTerm)) }
    else
      { s with serviceRequests := some all }

/-- Models `handleSearchChange(event)` (lines 118-121). -/
def handleSearchChange (h : Host) (value : String) (s : State) : State :=
  onClickSearch h { s with searchTerm := value }

/-- The `reduce` of the form validation (lines 152-156): the accumulator
`validSoFar` and the effects so far. -/
def validateInputs (inputs : List InputCmp) : Bool × List Effect :=
  inputs.foldl
    (fun acc inputCmp =>
      (acc.1 && inputCmp.valid,
        acc.2 ++ [Effect.reportValidity inputCmp.name] ++
          (if acc.1 then [Effect.checkValidity inputCmp.name] else [])))
    (true, [])

/-- The `catch` block of `handleSubmitRequest` (lines 191-193). -/
def submitCatch (s : State) (fx : List Effect) : State × List Effect :=
  (s, fx ++ [.consoleError, showToast "Error: $\x7berror\x7d" .error])

/-- Models `handleSubmitRequest()` (lines 150-198); `inputs` are the bound
inputs of the template, `post` is what the POST call is answered and `reload`
what the GET call of the reload is answered, if it is issued. -/
def handleSubmitRequest (h : Host) (inputs : List InputCmp) (post reload : FetchResult)
    (s : State) : State × List Effect :=
  let v := validateInputs inputs
  if !v.1 then
    (s, v.2 ++ [showToast "Please fill out all required fields." .error])
  else
    let s := { s with isSubmitting := true }
    let s := { s with isLoading := true }
    let fx := v.2 ++ [Effect.fetch "POST" (authorization s) (some (s.subject, s.description)) post]
    let r : State × List Effect :=
      match post with
      | .rejected _ => submitCatch s fx
      | .resolved response =>
        if response.ok then
          match response.body.json with
          | none => submitCatch s fx
          | some data =>
            match data.message with
            | none => submitCatch s fx
            | some message =>
              let fx := fx ++ [showToast (orElse message "Request sent successfully!") .success]
              let s := { s with subject := "" }
              let s := { s with description := "" }
              let l := loadServiceRequests h reload s
              (l.1, fx ++ l.2)
        else
          match response.body.json with
          | none => submitCatch s fx
          | some errorData =>
            let fx := fx ++ [.consoleError]
            match errorData.message with
            | none => submitCatch s fx
            | some message =>
              (s, fx ++ [showToast (orElse message "Error : $\x7bresponse.status\x7d") .error])
    ({ r.1 with isSubmitting := false, isLoading := false }, r.2)

/-- Models `connectedCallback()` (lines 20-28); `session` is what `getSessionId`
resolves with (`none` when it rejects). -/
def connectedCallback (h : Host) (session : Option String) (get : FetchResult) (s : State) :
    State × List Effect :=
  match session with
  | some sessionId => loadServiceRequests h get { s with sessionId := some sessionId }
  | none => (s, [.consoleError])

/-! ## Observations on effect traces -/

/-- The toast events of a trace, in order. -/
def toasts (fx : List Effect) : List Toast :=
  fx.filterMap fun e =>
    match e with
    | .toast t => some t
    | _ => none

/-- The methods of the HTTP calls of a trace, in order. -/
def httpCalls (fx : List Effect) : List String :=
  fx.filterMap fun e =>
    match e with
    | .fetch method _ _ _ => some method
    | _ => none

/-- The names of the inputs on which `reportValidity` was called, in order. -/
def reported (fx : List Effect) : List String :=
  fx.filterMap fun e =>
    match e with
    | .reportValidity name => some name
    | _ => none

/-- What the GET calls of a trace were answered, in order. -/
def listFetches (fx : List Effect) : List FetchResult :=
  fx.filterMap fun e =>
    match e with
    | .fetch method _ _ result => if method = "GET" then some result else none
    | _ => none

/-! ## The filter of the specification -/

/-- A field is present, non-empty and, lowercased, contains the lowercased
search term. -/
def FieldContains (h : Host) (term : String) (field : Option String) : Prop :=
  match field with
  | none => False
  | some v => v ≠ "" ∧ (h.toLowerCase term).data <:+: (h.toLowerCase v).data

instance (h : Host) (term : String) (field : Option String) :
    Decidable (FieldContains h term field) := by
  unfold FieldContains
  cases field <;> infer_instance

/-- The subject or the description of the request contains the search term,
case-insensitively. -/
def MatchesTerm (h : Host) (term : String) (request : Request) : Prop :=
  FieldContains h term request.Subject__c ∨ FieldContains h term request.Description__c

instance (h : Host) (term : String) (request : Request) :
    Decidable (MatchesTerm h term request) := by
  unfold MatchesTerm
  infer_instance

/-- A host that lowercases the letters A-Z, as `toLowerCase` does on ASCII
strings, and prints the stored date unformatted. -/
def asciiHost : Host :=
  { toLowerCase := fun v => ⟨v.data.map Char.toLower⟩
    toLocaleDateString := fun v => v.getD "Invalid Date" }

/-- A raw record with the given subject, description and status. -/
def rawRequest (subject description status : Option String) : Request :=
  { Subject__c := subject
    Description__c := description
    Status__c := status
    CreatedDate := none
    statusClass := none
    CreatedDateFormatted := none }

/-- The POST did not succeed: the call was rejected, or the status is not 2xx,
or the body of the response cannot be parsed. -/
def PostFailed (post : FetchResult) : Prop :=
  match post with
  | .rejected _ => True
  | .resolved response => response.ok = false ∨ response.body.json = none

/-! ## The component as a state machine -/

/-- A completed operation of the component, with what the environment answered
during it. -/
inductive Op where
  | connectedCallback (session : Option String) (get : FetchResult)
  | loadServiceRequests (get : FetchResult)
  | handleInputChange (name value : String)
  | handleSearchChange (value : String)
  | onClickSearch
  | handleSubmitRequest (inputs : List InputCmp) (post reload : FetchResult)
deriving DecidableEq, Repr

/-- Runs one operation: the state after it and the effects it performed. -/
def runOp (h : Host) (op : Op) (s : State) : State × List Effect :=
  match op with
  | .connectedCallback session get => connectedCallback h session get s
  | .loadServiceRequests get => loadServiceRequests h get s
  | .handleInputChange name value => (handleInputChange name value s, [])
  | .handleSearchChange value => (handleSearchChange h value s, [])
  | .onClickSearch => (onClickSearch h s, [])
  | .handleSubmitRequest inputs post reload => handleSubmitRequest h inputs post reload s

/-- Runs the operations one after the other: the final state and the whole
trace of effects. -/
def runOps (h : Host) (ops : List Op) (s : State) : State × List Effect :=
  ops.foldl (fun acc op => ((runOp h op acc.1).1, acc.2 ++ (runOp h op acc.1).2)) (s, [])

/-- The three causes of a failed list fetch that the specification names: the
call was rejected (network error), the status is not 2xx, or the body is
malformed JSON. -/
def FetchResult.failedAsClaimed (get : FetchResult) : Bool :=
  match get with
  | .rejected _ => true
  | .resolved response =>
    !response.ok ||
      match response.body with
      | .unparseable => true
      | _ => false

/-- A list fetch did not deliver a list: one of the three causes of
`failedAsClaimed`, or a 2xx answer whose body is well-formed JSON but not an
array of records (`null`, an object). -/
def FetchResult.failed (get : FetchResult) : Bool :=
  match get with
  | .rejected _ => true
  | .resolved response =>
    !response.ok ||
      match response.body with
      | .requests _ => false
      | _ => true

/-- The most recent GET of the trace failed; `false` when the trace has no
GET. -/
def lastListFetchFailed (fx : List Effect) : Bool :=
  match (listFetches fx).getLast? with
  | some get => get.failed
  | none => false

/-- The most recent GET of the trace failed by one of the three causes the
specification names; `false` when the trace has no GET. -/
def lastListFetchFailedAsClaimed (fx : List Effect) : Bool :=
  match (listFetches fx).getLast? with
  | some get => get.failedAsClaimed
  | none => false

/-- Both caches are `null` when `failed` is set, and both are lists when it is
not. -/
def CachesAgree (s : State) (failed : Bool) : Prop :=
  if failed then s.allServiceRequests = none ∧ s.serviceRequests = none
  else s.allServiceRequests.isSome = true ∧ s.serviceRequests.isSome = true

/-! ## statusClass -/

/-- C9, as amended: `statusClass` is a total function of the status of the
request alone.  It gives the error colour class `slds-text-color_error` for the
status `New`, the warning colour class `slds-text-color_warning` for the status
`In Progress` (with a space), the success colour class
`slds-text-color_success` for `Closed`, and the empty string for every other
status, `InProgress` and an absent one included; two requests with the same
status get the same class. -/
theorem statusClass_of_status (request other : Request) :
    (request.Status__c = some "New" → statusClass request = "slds-text-color_error") ∧
    (request.Status__c = some "In Progress" →
      statusClass request = "slds-text-color_warning") ∧
    (request.Status__c = some "Closed" → statusClass request = "slds-text-color_success") ∧
    (request.Status__c ≠ some "New" → request.Status__c ≠ some "In Progress" →
      request.Status__c ≠ some "Closed" → statusClass request = "") ∧
    (request.Status__c = other.Status__c → statusClass request = statusClass other) := by
  refine ⟨?_, ?_, ?_, ?_, ?_⟩
  · intro hs
    simp [statusClass, hs]
  · intro hs
    simp [statusClass, hs]
  · intro hs
    simp [statusClass, hs]
  · intro h1 h2 h3
    unfold statusClass
    split <;> simp_all
  · intro hs
    simp [statusClass, hs]

/-- The four rows of the mapping at concrete records, and two records that
differ in everything but the status. -/
theorem statusClass_of_status_witness :
    statusClass (rawRequest none none (some "New")) = "slds-text-color_error" ∧
    statusClass (rawRequest none none (some "In Progress")) = "slds-text-color_warning" ∧
    statusClass (rawRequest none none (some "Closed")) = "slds-text-color_success" ∧
    statusClass (rawRequest none none none) = "" ∧
    statusClass (rawRequest none none (some "Cancelled")) = "" ∧
    statusClass (rawRequest (some "a") none (some "New")) =
      statusClass (rawRequest none (some "b") (some "New")) :=
  ⟨(statusClass_of_status (rawRequest none none (some "New")) (rawRequest none none none)).1 rfl,
   (statusClass_of_status (rawRequest none none (some "In Progress"))
      (rawRequest none none none)).2.1 rfl,
   (statusClass_of_status (rawRequest none none (some "Closed"))
      (rawRequest none none none)).2.2.1 rfl,
   (statusClass_of_status (rawRequest none none none) (rawRequest none none none)).2.2.2.1
      (by decide) (by decide) (by decide),
   (statusClass_of_status (rawRequest none none (some "Cancelled"))
      (rawRequest none none none)).2.2.2.1 (by decide) (by decide) (by decide),
   (statusClass_of_status (rawRequest (some "a") none (some "New"))
      (rawRequest none (some "b") (some "New"))).2.2.2.2 rfl⟩

/-- C9, as stated, fails on the status `InProgress`: the `switch` of lines 37-49
has no such case, so the class is the empty string and not the warning colour
class; and the status `In Progress`, which is none of `New`, `InProgress`,
`Closed`, gets the warning colour class and not the empty string. -/
theorem statusClass_InProgress_is_default :
    statusClass (rawRequest none none (some "InProgress")) = "" ∧
    statusClass (rawRequest none none (some "InProgress")) ≠ "slds-text-color_warning" ∧
    some "In Progress" ∉ [some "New", some "InProgress", some "Closed"] ∧
    statusClass (rawRequest none none (some "In Progress")) = "slds-text-color_warning" ∧
    statusClass (rawRequest none none (some "In Progress")) ≠ "" := by
  decide

/-! ## onClickSearch -/

/-- The callback of the filter computes the predicate of the specification. -/
theorem requestMatches_iff (h : Host) (term : String) (request : Request) :
    requestMatches h (h.toLowerCase term) request = true ↔ MatchesTerm h term request := by
  unfold requestMatches MatchesTerm FieldContains includes
  cases request.Subject__c <;> cases request.Description__c <;> simp

/-- C1: when the full cache is a list, `onClickSearch` leaves the full cache as
it is and sets the displayed cache to the full cache when the lowercased search
term is empty, and otherwise to the requests of the full cache, in their order,
whose subject or description is present, non-empty and contains the lowercased
term once lowercased; a request whose two fields are absent or empty is left
out. -/
theorem onClickSearch_filters (h : Host) (s : State) (all : List Request)
    (hall : s.allServiceRequests = some all) :
    (onClickSearch h s).allServiceRequests = some all ∧
    (h.toLowerCase s.searchTerm = "" → (onClickSearch h s).serviceRequests = some all) ∧
    (h.toLowerCase s.searchTerm ≠ "" →
      (onClickSearch h s).serviceRequests =
        some (all.filter fun request => decide (MatchesTerm h s.searchTerm request))) ∧
    (h.toLowerCase s.searchTerm ≠ "" →
      ∀ request ∈ all,
        (request.Subject__c = none ∨ request.Subject__c = some "") →
        (request.Description__c = none ∨ request.Description__c = some "") →
        ∀ shown, (onClickSearch h s).serviceRequests = some shown → request ∉ shown) := by
  have hfilter : all.filter (requestMatches h (h.toLowerCase s.searchTerm)) =
      all.filter fun request => decide (MatchesTerm h s.searchTerm request) := by
    apply List.filter_congr
    intro request _
    by_cases hm : MatchesTerm h s.searchTerm request
    · simp [hm, (requestMatches_iff h s.searchTerm request).2 hm]
    · have hn : requestMatches h (h.toLowerCase s.searchTerm) request = false := by
        cases hr : requestMatches h (h.toLowerCase s.searchTerm) request
        · rfl
        · exact absurd ((requestMatches_iff h s.searchTerm request).1 hr) hm
      simp [hm, hn]
  refine ⟨?_, ?_, ?_, ?_⟩
  · unfold onClickSearch
    rw [hall]
    by_cases ht : h.toLowerCase s.searchTerm = "" <;> simp [ht, hall]
  · intro ht
    unfold onClickSearch
    rw [hall]
    simp [ht]
  · intro ht
    unfold onClickSearch
    rw [hall]
    simp [ht, hfilter]
  · intro ht request _ hsub hdesc shown hshown hmem
    have hsr : (onClickSearch h s).serviceRequests =
        some (all.filter fun request => decide (MatchesTerm h s.searchTerm request)) := by
      unfold onClickSearch
      rw [hall]
      simp [ht, hfilter]
    rw [hsr] at hshown
    cases hshown
    have hm : MatchesTerm h s.searchTerm request := by
      simpa using (List.mem_filter.1 hmem).2
    unfold MatchesTerm FieldContains at hm
    rcases hsub with hsub | hsub <;> rcases hdesc with hdesc | hdesc <;>
      simp [hsub, hdesc] at hm

/-- The search term `FOO` keeps a request whose subject is `the foo bar` and
drops one whose fields are absent or empty. -/
theorem onClickSearch_filters_witness :
    (onClickSearch asciiHost
        { State.initial with
          allServiceRequests :=
            some [rawRequest (some "the foo bar") none none, rawRequest none (some "") none]
          searchTerm := "FOO" }).allServiceRequests =
      some [rawRequest (some "the foo bar") none none, rawRequest none (some "") none] ∧
    (onClickSearch asciiHost
        { State.initial with
          allServiceRequests :=
            some [rawRequest (some "the foo bar") none none, rawRequest none (some "") none]
          searchTerm := "FOO" }).serviceRequests =
      some [rawRequest (some "the foo bar") none none] :=
  ⟨(onClickSearch_filters asciiHost
      { State.initial with
        allServiceRequests :=
          some [rawRequest (some "the foo bar") none none, rawRequest none (some "") none]
        searchTerm := "FOO" } _ rfl).1,
   ((onClickSearch_filters asciiHost
      { State.initial with
        allServiceRequests :=
          some [rawRequest (some "the foo bar") none none, rawRequest none (some "") none]
        searchTerm := "FOO" } _ rfl).2.2.1 (by decide)).trans (by decide)⟩

/-! ## loadServiceRequests -/

/-- The state after a GET answered with a 2xx status and a JSON array. -/
theorem loadServiceRequests_ok_state (h : Host) (s : State) (status : Nat)
    (data : List Request) (hok : 200 ≤ status ∧ status ≤ 299) :
    (loadServiceRequests h (.resolved { status := status, body := .requests data }) s).1 =
      { s with
        allServiceRequests := some (data.map (processRequest h))
        serviceRequests := some (data.map (processRequest h))
        isLoading := false } := by
  simp [loadServiceRequests, Response.ok, Body.json, hok]

/-- C2: after a GET answered with a 2xx status and a JSON array of records,
whatever the search term is, the full cache holds one entry per record, in the
same order, each being the record with `statusClass` set to the class of its
status, and the displayed cache equals the full cache; so the two have the same
length and every displayed request is in the full cache. -/
theorem loadServiceRequests_ok_caches (h : Host) (s : State) (status : Nat)
    (data : List Request) (hok : 200 ≤ status ∧ status ≤ 299) :
    ∃ full displayed : List Request,
      (loadServiceRequests h (.resolved { status := status, body := .requests data })
        s).1.allServiceRequests = some full ∧
      (loadServiceRequests h (.resolved { status := status, body := .requests data })
        s).1.serviceRequests = some displayed ∧
      full.length = data.length ∧
      (∀ (i : Nat) (request : Request), data[i]? = some request →
        ∃ entry : Request, full[i]? = some entry ∧
          entry.Subject__c = request.Subject__c ∧
          entry.Description__c = request.Description__c ∧
          entry.Status__c = request.Status__c ∧
          entry.CreatedDate = request.CreatedDate ∧
          entry.statusClass = some (statusClass request)) ∧
      displayed = full ∧
      displayed.length = full.length ∧
      (∀ request ∈ displayed, request ∈ full) := by
  refine ⟨data.map (processRequest h), data.map (processRequest h), ?_, ?_, ?_, ?_, rfl, rfl,
    fun _ hr => hr⟩
  · rw [loadServiceRequests_ok_state h s status data hok]
  · rw [loadServiceRequests_ok_state h s status data hok]
  · simp
  · intro i request hi
    refine ⟨processRequest h request, ?_, rfl, rfl, rfl, rfl, rfl⟩
    simp [List.getElem?_map, hi]

/-- The list with the one record `Printer broken`, of status `New`, loaded
while a search term is set: the full cache has one entry, of class
`slds-text-color_error`, and the displayed cache equals the full cache. -/
theorem loadServiceRequests_ok_caches_witness :
    ∃ full displayed : List Request,
      (loadServiceRequests asciiHost
        (.resolved
          { status := 200
            body := .requests [rawRequest (some "Printer broken") (some "no toner") (some "New")] })
        { State.initial with searchTerm := "zzz" }).1.allServiceRequests = some full ∧
      (loadServiceRequests asciiHost
        (.resolved
          { status := 200
            body := .requests [rawRequest (some "Printer broken") (some "no toner") (some "New")] })
        { State.initial with searchTerm := "zzz" }).1.serviceRequests = some displayed ∧
      full.length = 1 ∧
      (full.map fun entry => entry.statusClass) = [some "slds-text-color_error"] ∧
      displayed = full := by
  obtain ⟨full, displayed, hfull, hdisplayed, hlen, _, heq, _, _⟩ :=
    loadServiceRequests_ok_caches asciiHost { State.initial with searchTerm := "zzz" } 200
      [rawRequest (some "Printer broken") (some "no toner") (some "New")] (by decide)
  refine ⟨full, displayed, hfull, hdisplayed, hlen, ?_, heq⟩
  have hstate := loadServiceRequests_ok_state asciiHost { State.initial with searchTerm := "zzz" }
    200 [rawRequest (some "Printer broken") (some "no toner") (some "New")] (by decide)
  rw [hstate] at hfull
  cases hfull
  decide

/-- C3, at the failing input: a GET answered with status 500 and the body
`{"message":"db down"}` gives one toast, of kind error, whose message is the
fixed text of line 91, which contains neither `500` nor `db down`. -/
theorem loadServiceRequests_error_toast_literal (h : Host) (s : State) :
    toasts (loadServiceRequests h
        (.resolved { status := 500, body := .object (some "db down") }) s).2 =
      [{ title := "Error"
         message :=
          "Error loading requests: $\x7bresponse.status\x7d $\x7berrorData.message\x7d"
         variant := .error }] ∧
    includes "Error loading requests: $\x7bresponse.status\x7d $\x7berrorData.message\x7d"
      (toString (500 : Nat)) = false ∧
    includes "Error loading requests: $\x7bresponse.status\x7d $\x7berrorData.message\x7d"
      "db down" = false := by
  refine ⟨?_, by decide, by decide⟩
  simp [loadServiceRequests, Response.ok, Body.json, toasts, showToast]

/-! ## handleSubmitRequest -/

/-- The `reduce` of the form validation, from any accumulator: the flag is the
conjunction of the validities, `reportValidity` is called on every input, and
nothing else but validity calls happens. -/
theorem validate_foldl (inputs : List InputCmp) (acc : Bool × List Effect) :
    (inputs.foldl
      (fun acc inputCmp =>
        (acc.1 && inputCmp.valid,
          acc.2 ++ [Effect.reportValidity inputCmp.name] ++
            (if acc.1 then [Effect.checkValidity inputCmp.name] else [])))
      acc).1 = (acc.1 && inputs.all fun inputCmp => inputCmp.valid) ∧
    toasts (inputs.foldl
      (fun acc inputCmp =>
        (acc.1 && inputCmp.valid,
          acc.2 ++ [Effect.reportValidity inputCmp.name] ++
            (if acc.1 then [Effect.checkValidity inputCmp.name] else [])))
      acc).2 = toasts acc.2 ∧
    httpCalls (inputs.foldl
      (fun acc inputCmp =>
        (acc.1 && inputCmp.valid,
          acc.2 ++ [Effect.reportValidity inputCmp.name] ++
            (if acc.1 then [Effect.checkValidity inputCmp.name] else [])))
      acc).2 = httpCalls acc.2 ∧
    listFetches (inputs.foldl
      (fun acc inputCmp =>
        (acc.1 && inputCmp.valid,
          acc.2 ++ [Effect.reportValidity inputCmp.name] ++
            (if acc.1 then [Effect.checkValidity inputCmp.name] else [])))
      acc).2 = listFetches acc.2 ∧
    reported (inputs.foldl
      (fun acc inputCmp =>
        (acc.1 && inputCmp.valid,
          acc.2 ++ [Effect.reportValidity inputCmp.name] ++
            (if acc.1 then [Effect.checkValidity inputCmp.name] else [])))
      acc).2 = reported acc.2 ++ inputs.map fun inputCmp => inputCmp.name := by
  induction inputs generalizing acc with
  | nil => simp
  | cons inputCmp rest ih =>
    simp only [List.foldl_cons]
    obtain ⟨h1, h2, h3, h4, h5⟩ := ih (acc.1 && inputCmp.valid,
      acc.2 ++ [Effect.reportValidity inputCmp.name] ++
        (if acc.1 then [Effect.checkValidity inputCmp.name] else []))
    refine ⟨?_, ?_, ?_, ?_, ?_⟩
    · rw [h1]
      simp [Bool.and_assoc]
    · rw [h2]
      cases acc.1 <;> simp [toasts]
    · rw [h3]
      cases acc.1 <;> simp [httpCalls]
    · rw [h4]
      cases acc.1 <;> simp [listFetches]
    · rw [h5]
      cases acc.1 <;> simp [reported]

/-- The validation flag is the conjunction of the validities of the inputs. -/
theorem validateInputs_flag (inputs : List InputCmp) :
    (validateInputs inputs).1 = inputs.all fun inputCmp => inputCmp.valid := by
  simpa [validateInputs] using (validate_foldl inputs (true, [])).1

/-- The validation dispatches no toast. -/
theorem validateInputs_toasts (inputs : List InputCmp) :
    toasts (validateInputs inputs).2 = [] := by
  simpa [validateInputs, toasts] using (validate_foldl inputs (true, [])).2.1

/-- The validation issues no HTTP call. -/
theorem validateInputs_httpCalls (inputs : List InputCmp) :
    httpCalls (validateInputs inputs).2 = [] := by
  simpa [validateInputs, httpCalls] using (validate_foldl inputs (true, [])).2.2.1

/-- The validation issues no GET call. -/
theorem validateInputs_listFetches (inputs : List InputCmp) :
    listFetches (validateInputs inputs).2 = [] := by
  simpa [validateInputs, listFetches] using (validate_foldl inputs (true, [])).2.2.2.1

/-- The validation calls `reportValidity` on every input, in order. -/
theorem validateInputs_reported (inputs : List InputCmp) :
    reported (validateInputs inputs).2 = inputs.map fun inputCmp => inputCmp.name := by
  simpa [validateInputs, reported] using (validate_foldl inputs (true, [])).2.2.2.2

/-- A run of `loadServiceRequests` issues exactly one HTTP call, the GET. -/
theorem loadServiceRequests_httpCalls (h : Host) (get : FetchResult) (s : State) :
    httpCalls (loadServiceRequests h get s).2 = ["GET"] ∧
    listFetches (loadServiceRequests h get s).2 = [get] := by
  unfold loadServiceRequests
  rcases get with error | response
  · simp [loadCatch, httpCalls, listFetches, showToast]
  · by_cases hok : response.ok = true <;>
      rcases hb : response.body with _ | _ | data | message <;>
        simp [hok, hb, Body.json, loadCatch, httpCalls, listFetches, showToast]

/-- A run of `handleSubmitRequest` whose validation passes and whose POST is
answered with a 2xx status and a body that parses to a value other than `null`:
the success toast, the reset of the draft, then the run of
`loadServiceRequests`, then the two flags. -/
theorem handleSubmitRequest_with_reload (h : Host) (inputs : List InputCmp)
    (response : Response) (data : Json) (message : Option String) (reload : FetchResult)
    (s : State) (hflag : (validateInputs inputs).1 = true) (hok : response.ok = true)
    (hbody : response.body.json = some data) (hmessage : data.message = some message) :
    handleSubmitRequest h inputs (.resolved response) reload s =
      ({ (loadServiceRequests h reload
            { s with isSubmitting := true, isLoading := true, subject := "",
                     description := "" }).1 with
          isSubmitting := false, isLoading := false },
        ((validateInputs inputs).2 ++
          [Effect.fetch "POST" (authorization s) (some (s.subject, s.description))
            (.resolved response)]) ++
          Effect.toast { title := "Success"
                         message := orElse message "Request sent successfully!"
                         variant := .success } ::
          (loadServiceRequests h reload
            { s with isSubmitting := true, isLoading := true, subject := "",
                     description := "" }).2) := by
  simp [handleSubmitRequest, hflag, hok, hbody, hmessage, showToast, authorization]

/-- C5, as amended: when every input is valid and the POST is answered with a
2xx status and a body that parses to a JSON value other than `null`,
`handleSubmitRequest` dispatches a success toast whose message is the message
of the body when that is present and non-empty and
`Request sent successfully!` otherwise, then runs `loadServiceRequests` once on
the state with `subject` and `description` emptied, and completes from the
state that run ends in: `subject` and `description` are empty, and the POST and
one GET are the only HTTP calls. -/
theorem handleSubmitRequest_success (h : Host) (inputs : List InputCmp) (status : Nat)
    (body : Body) (data : Json) (reload : FetchResult) (s : State)
    (hvalid : ∀ inputCmp ∈ inputs, inputCmp.valid = true)
    (hok : 200 ≤ status ∧ status ≤ 299) (hbody : body.json = some data)
    (hnull : data ≠ Json.null) :
    (∃ pre shown,
      (handleSubmitRequest h inputs (.resolved { status := status, body := body }) reload s).2 =
        pre ++ Effect.toast { title := "Success", message := shown, variant := .success } ::
          (loadServiceRequests h reload
            { s with isSubmitting := true, isLoading := true, subject := "",
                     description := "" }).2 ∧
      toasts pre = [] ∧ httpCalls pre = ["POST"] ∧
      (∀ m, data = Json.object (some m) → m ≠ "" → shown = m) ∧
      ((∀ m, data = Json.object (some m) → m = "") →
        shown = "Request sent successfully!")) ∧
    (handleSubmitRequest h inputs (.resolved { status := status, body := body }) reload s).1 =
      { (loadServiceRequests h reload
          { s with isSubmitting := true, isLoading := true, subject := "",
                   description := "" }).1 with
        isSubmitting := false, isLoading := false } ∧
    (handleSubmitRequest h inputs (.resolved { status := status, body := body }) reload
      s).1.subject = "" ∧
    (handleSubmitRequest h inputs (.resolved { status := status, body := body }) reload
      s).1.description = "" ∧
    httpCalls (handleSubmitRequest h inputs (.resolved { status := status, body := body })
      reload s).2 = ["POST", "GET"] ∧
    listFetches (handleSubmitRequest h inputs (.resolved { status := status, body := body })
      reload s).2 = [reload] := by
  have hflag : (validateInputs inputs).1 = true := by
    rw [validateInputs_flag]
    exact List.all_eq_true.2 hvalid
  obtain ⟨message, hmessage⟩ : ∃ message, data.message = some message := by
    cases data with
    | null => exact absurd rfl hnull
    | requests records => exact ⟨none, rfl⟩
    | object m => exact ⟨m, rfl⟩
  have hrun := handleSubmitRequest_with_reload h inputs { status := status, body := body }
    data message reload s hflag (by simp [Response.ok, hok]) hbody hmessage
  have hsub : ∀ (t : State) (get : FetchResult),
      (loadServiceRequests h get t).1.subject = t.subject ∧
      (loadServiceRequests h get t).1.description = t.description := by
    intro t get
    unfold loadServiceRequests
    rcases get with error | response
    · simp [loadCatch]
    · by_cases hr : response.ok = true <;>
        rcases hb : response.body with _ | _ | records | msg <;>
          simp [hr, hb, Body.json, loadCatch]
  refine ⟨⟨_, _, congrArg Prod.snd hrun, ?_, ?_, ?_, ?_⟩, congrArg Prod.fst hrun, ?_, ?_, ?_, ?_⟩
  · have h1 := validateInputs_toasts inputs
    simp only [toasts] at h1 ⊢
    simp [List.filterMap_append, h1]
  · have h1 := validateInputs_httpCalls inputs
    simp only [httpCalls] at h1 ⊢
    simp [List.filterMap_append, h1]
  · intro m hm hne
    subst hm
    simp only [Json.message, Option.some.injEq] at hmessage
    subst hmessage
    simp [orElse, hne]
  · intro hall
    cases data with
    | null => exact absurd rfl hnull
    | requests records =>
      simp only [Json.message, Option.some.injEq] at hmessage
      subst hmessage
      rfl
    | object m =>
      simp only [Json.message, Option.some.injEq] at hmessage
      subst hmessage
      cases m with
      | none => rfl
      | some t => simp [orElse, hall t rfl]
  · rw [hrun]
    exact (hsub _ reload).1
  · rw [hrun]
    exact (hsub _ reload).2
  · rw [hrun]
    have h1 := validateInputs_httpCalls inputs
    have h2 := (loadServiceRequests_httpCalls h reload
      { s with isSubmitting := true, isLoading := true, subject := "", description := "" }).1
    simp only [httpCalls] at h1 h2 ⊢
    simp [List.filterMap_append, h1, h2]
  · rw [hrun]
    have h1 := validateInputs_listFetches inputs
    have h2 := (loadServiceRequests_httpCalls h reload
      { s with isSubmitting := true, isLoading := true, subject := "", description := "" }).2
    simp only [listFetches] at h1 h2 ⊢
    simp [List.filterMap_append, h1, h2]

/-- A submission answered with status 200 and the body `{"message":"Created"}`:
the draft is emptied, the success toast says `Created`, and one reload
follows the POST. -/
theorem handleSubmitRequest_success_witness :
    (handleSubmitRequest asciiHost [{ name := "subject", valid := true }]
      (.resolved { status := 200, body := .object (some "Created") })
      (.resolved { status := 200, body := .requests [] })
      { State.initial with subject := "Printer", description := "broken" }).1.subject = "" ∧
    (handleSubmitRequest asciiHost [{ name := "subject", valid := true }]
      (.resolved { status := 200, body := .object (some "Created") })
      (.resolved { status := 200, body := .requests [] })
      { State.initial with subject := "Printer", description := "broken" }).1.description = "" ∧
    httpCalls (handleSubmitRequest asciiHost [{ name := "subject", valid := true }]
      (.resolved { status := 200, body := .object (some "Created") })
      (.resolved { status := 200, body := .requests [] })
      { State.initial with subject := "Printer", description := "broken" }).2 =
      ["POST", "GET"] ∧
    (toasts (handleSubmitRequest asciiHost [{ name := "subject", valid := true }]
      (.resolved { status := 200, body := .object (some "Created") })
      (.resolved { status := 200, body := .requests [] })
      { State.initial with subject := "Printer", description := "broken" }).2).head? =
      some { title := "Success", message := "Created", variant := .success } := by
  have hw := handleSubmitRequest_success asciiHost [{ name := "subject", valid := true }] 200
    (.object (some "Created")) (.object (some "Created"))
    (.resolved { status := 200, body := .requests [] })
    { State.initial with subject := "Printer", description := "broken" }
    (by decide) (by decide) rfl (by decide)
  obtain ⟨⟨pre, shown, hfx, hpre, _, hshown, _⟩, _, hsubject, hdescription, hcalls, _⟩ := hw
  refine ⟨hsubject, hdescription, hcalls, ?_⟩
  rw [hfx, hshown "Created" rfl (by decide)]
  simp only [toasts] at hpre
  simp [toasts, List.filterMap_append, hpre]

/-- C5, as stated, fails on a 2xx POST whose body is the JSON value `null`:
the body parses, the read of `data.message` on line 180 throws, and the
`catch` block of lines 191-193 runs: the only toast is an error toast, the
draft is kept and no GET follows the POST. -/
theorem handleSubmitRequest_null_body_keeps_draft :
    toasts (handleSubmitRequest asciiHost [{ name := "subject", valid := true }]
      (.resolved { status := 200, body := .null })
      (.resolved { status := 200, body := .requests [] })
      { State.initial with subject := "Printer", description := "broken" }).2 =
      [{ title := "Error", message := "Error: $\x7berror\x7d", variant := .error }] ∧
    (handleSubmitRequest asciiHost [{ name := "subject", valid := true }]
      (.resolved { status := 200, body := .null })
      (.resolved { status := 200, body := .requests [] })
      { State.initial with subject := "Printer", description := "broken" }).1.subject =
      "Printer" ∧
    (handleSubmitRequest asciiHost [{ name := "subject", valid := true }]
      (.resolved { status := 200, body := .null })
      (.resolved { status := 200, body := .requests [] })
      { State.initial with subject := "Printer", description := "broken" }).1.description =
      "broken" ∧
    httpCalls (handleSubmitRequest asciiHost [{ name := "subject", valid := true }]
      (.resolved { status := 200, body := .null })
      (.resolved { status := 200, body := .requests [] })
      { State.initial with subject := "Printer", description := "broken" }).2 = ["POST"] := by
  decide

/-- C6: when some bound input is invalid, `handleSubmitRequest` issues no HTTP
call, dispatches exactly one toast, of kind error, saying
`Please fill out all required fields.`, leaves the whole state (subject,
description, both caches, both flags) as it was, and has called
`reportValidity` on every input. -/
theorem handleSubmitRequest_invalid (h : Host) (inputs : List InputCmp)
    (post reload : FetchResult) (s : State)
    (hinvalid : ∃ inputCmp ∈ inputs, inputCmp.valid = false) :
    (handleSubmitRequest h inputs post reload s).1 = s ∧
    httpCalls (handleSubmitRequest h inputs post reload s).2 = [] ∧
    toasts (handleSubmitRequest h inputs post reload s).2 =
      [{ title := "Error"
         message := "Please fill out all required fields."
         variant := .error }] ∧
    reported (handleSubmitRequest h inputs post reload s).2 =
      inputs.map fun inputCmp => inputCmp.name := by
  have hflag : (validateInputs inputs).1 = false := by
    rw [validateInputs_flag]
    obtain ⟨inputCmp, hmem, hv⟩ := hinvalid
    cases hall : inputs.all fun inputCmp => inputCmp.valid
    · rfl
    · have := List.all_eq_true.1 hall inputCmp hmem
      simp [hv] at this
  have hrun : handleSubmitRequest h inputs post reload s =
      (s, (validateInputs inputs).2 ++
        [showToast "Please fill out all required fields." .error]) := by
    simp [handleSubmitRequest, hflag]
  rw [hrun]
  have h1 := validateInputs_httpCalls inputs
  have h2 := validateInputs_toasts inputs
  have h3 := validateInputs_reported inputs
  simp only [httpCalls, toasts, reported] at h1 h2 h3 ⊢
  refine ⟨trivial, ?_, ?_, ?_⟩
  · simp [List.filterMap_append, h1, showToast]
  · simp [List.filterMap_append, h2, showToast]
  · simp [List.filterMap_append, h3, showToast]

/-- A form whose second of three inputs is invalid: no HTTP call, the state is
kept, and all three inputs are reported. -/
theorem handleSubmitRequest_invalid_witness :
    (handleSubmitRequest asciiHost
      [{ name := "subject", valid := true }, { name := "description", valid := false },
        { name := "extra", valid := true }]
      (.rejected "") (.rejected "")
      { State.initial with subject := "Printer" }).1 =
      { State.initial with subject := "Printer" } ∧
    httpCalls (handleSubmitRequest asciiHost
      [{ name := "subject", valid := true }, { name := "description", valid := false },
        { name := "extra", valid := true }]
      (.rejected "") (.rejected "")
      { State.initial with subject := "Printer" }).2 = [] ∧
    reported (handleSubmitRequest asciiHost
      [{ name := "subject", valid := true }, { name := "description", valid := false },
        { name := "extra", valid := true }]
      (.rejected "") (.rejected "")
      { State.initial with subject := "Printer" }).2 = ["subject", "description", "extra"] :=
  have hw := handleSubmitRequest_invalid asciiHost
    [{ name := "subject", valid := true }, { name := "description", valid := false },
      { name := "extra", valid := true }]
    (.rejected "") (.rejected "") { State.initial with subject := "Printer" }
    ⟨{ name := "description", valid := false }, by decide, rfl⟩
  ⟨hw.1, hw.2.1, hw.2.2.2⟩

/-- A run of `handleSubmitRequest` whose validation fails, whose POST does not
succeed, or whose POST is answered with the body `null` keeps the draft and the
caches and issues no GET. -/
theorem handleSubmitRequest_without_reload (h : Host) (inputs : List InputCmp)
    (post reload : FetchResult) (s : State)
    (hfailed : (validateInputs inputs).1 = false ∨ PostFailed post ∨
      ∃ response, post = .resolved response ∧ response.body = .null) :
    (handleSubmitRequest h inputs post reload s).1.subject = s.subject ∧
    (handleSubmitRequest h inputs post reload s).1.description = s.description ∧
    (handleSubmitRequest h inputs post reload s).1.allServiceRequests =
      s.allServiceRequests ∧
    (handleSubmitRequest h inputs post reload s).1.serviceRequests = s.serviceRequests ∧
    listFetches (handleSubmitRequest h inputs post reload s).2 = [] ∧
    "GET" ∉ httpCalls (handleSubmitRequest h inputs post reload s).2 := by
  have h1 := validateInputs_httpCalls inputs
  have h2 := validateInputs_listFetches inputs
  simp only [httpCalls, listFetches] at h1 h2
  cases hflag : (validateInputs inputs).1
  · simp [handleSubmitRequest, hflag, httpCalls, listFetches, List.filterMap_append, h1, h2,
      showToast]
  · have hpost : PostFailed post ∨
        ∃ response, post = .resolved response ∧ response.body = .null := by
      rcases hfailed with hf | hf
      · rw [hflag] at hf
        cases hf
      · exact hf
    rcases post with error | response
    · simp [handleSubmitRequest, hflag, submitCatch, httpCalls, listFetches,
        List.filterMap_append, h1, h2, showToast]
    · rcases hpost with (hok | hjson) | ⟨response', hresponse, hnull⟩
      · rcases hb : response.body with _ | _ | data | message <;>
          simp [handleSubmitRequest, hflag, hok, hb, Body.json, Json.message, submitCatch,
            httpCalls, listFetches, List.filterMap_append, h1, h2, showToast]
      · by_cases hok : response.ok = true <;>
          simp [handleSubmitRequest, hflag, hok, hjson, submitCatch, httpCalls, listFetches,
            List.filterMap_append, h1, h2, showToast]
      · cases hresponse
        by_cases hok : response.ok = true <;>
          simp [handleSubmitRequest, hflag, hok, hnull, Body.json, Json.message, submitCatch,
            httpCalls, listFetches, List.filterMap_append, h1, h2, showToast]

/-- C7: when the POST is answered with a non-2xx status, is rejected, or has an
unparseable body, `handleSubmitRequest` leaves `subject`, `description` and
both caches as they were and issues no GET. -/
theorem handleSubmitRequest_failure_keeps_draft (h : Host) (inputs : List InputCmp)
    (post reload : FetchResult) (s : State) (hfailed : PostFailed post) :
    (handleSubmitRequest h inputs post reload s).1.subject = s.subject ∧
    (handleSubmitRequest h inputs post reload s).1.description = s.description ∧
    (handleSubmitRequest h inputs post reload s).1.allServiceRequests =
      s.allServiceRequests ∧
    (handleSubmitRequest h inputs post reload s).1.serviceRequests = s.serviceRequests ∧
    listFetches (handleSubmitRequest h inputs post reload s).2 = [] ∧
    "GET" ∉ httpCalls (handleSubmitRequest h inputs post reload s).2 :=
  handleSubmitRequest_without_reload h inputs post reload s (Or.inr (Or.inl hfailed))

/-- A draft submitted to a server that answers 500 with an unparseable body, and
one whose POST is rejected: the draft and the caches are kept. -/
theorem handleSubmitRequest_failure_keeps_draft_witness :
    (handleSubmitRequest asciiHost [{ name := "subject", valid := true }]
      (.resolved { status := 500, body := .unparseable }) (.rejected "")
      { State.initial with subject := "Printer", description := "broken" }).1.subject =
      "Printer" ∧
    (handleSubmitRequest asciiHost [{ name := "subject", valid := true }]
      (.rejected "offline") (.rejected "")
      { State.initial with subject := "Printer", description := "broken" }).1.description =
      "broken" ∧
    listFetches (handleSubmitRequest asciiHost [{ name := "subject", valid := true }]
      (.resolved { status := 200, body := .unparseable }) (.rejected "")
      { State.initial with subject := "Printer", description := "broken" }).2 = [] :=
  ⟨(handleSubmitRequest_failure_keeps_draft asciiHost [{ name := "subject", valid := true }]
      (.resolved { status := 500, body := .unparseable }) (.rejected "")
      { State.initial with subject := "Printer", description := "broken" }
      (Or.inl (by decide))).1,
   (handleSubmitRequest_failure_keeps_draft asciiHost [{ name := "subject", valid := true }]
      (.rejected "offline") (.rejected "")
      { State.initial with subject := "Printer", description := "broken" } trivial).2.1,
   (handleSubmitRequest_failure_keeps_draft asciiHost [{ name := "subject", valid := true }]
      (.resolved { status := 200, body := .unparseable }) (.rejected "")
      { State.initial with subject := "Printer", description := "broken" }
      (Or.inr rfl)).2.2.2.2.1⟩

/-- C8, at the failing input: a POST answered with status 500 and the body
`{}` gives one toast, of kind error, whose message is the fixed text of
line 189, which does not contain `500`. -/
theorem handleSubmitRequest_error_fallback_literal (h : Host) (reload : FetchResult)
    (s : State) :
    toasts (handleSubmitRequest h
        [{ name := "subject", valid := true }, { name := "description", valid := true }]
        (.resolved { status := 500, body := .object none }) reload s).2 =
      [{ title := "Error"
         message := "Error : $\x7bresponse.status\x7d"
         variant := .error }] ∧
    includes "Error : $\x7bresponse.status\x7d" (toString (500 : Nat)) = false := by
  refine ⟨?_, by decide⟩
  simp [handleSubmitRequest, validateInputs, Response.ok, Body.json, Json.message, toasts,
    showToast, orElse]

/-- C10: from a state with both flags down, `loadServiceRequests` ends with
both flags down whatever the GET is answered, and `handleSubmitRequest` ends
with both flags down whatever the validity of the inputs and whatever the POST
and the GET of the reload are answered. -/
theorem flags_down_after_completion (h : Host) (inputs : List InputCmp)
    (get post reload : FetchResult) (s : State)
    (hidle : s.isLoading = false ∧ s.isSubmitting = false) :
    (loadServiceRequests h get s).1.isLoading = false ∧
    (loadServiceRequests h get s).1.isSubmitting = false ∧
    (handleSubmitRequest h inputs post reload s).1.isSubmitting = false ∧
    (handleSubmitRequest h inputs post reload s).1.isLoading = false := by
  have hload : ∀ (t : State) (g : FetchResult),
      (loadServiceRequests h g t).1.isSubmitting = t.isSubmitting := by
    intro t g
    unfold loadServiceRequests
    rcases g with error | response
    · simp [loadCatch]
    · by_cases hr : response.ok = true <;>
        rcases hb : response.body with _ | _ | data | msg <;>
          simp [hr, hb, Body.json, loadCatch]
  refine ⟨by simp [loadServiceRequests], (hload s get).trans hidle.2, ?_, ?_⟩
  · cases hflag : (validateInputs inputs).1 <;> simp [handleSubmitRequest, hflag, hidle]
  · cases hflag : (validateInputs inputs).1 <;> simp [handleSubmitRequest, hflag, hidle]

/-- An idle component whose reload after a successful POST fails: both flags
are down at the end. -/
theorem flags_down_after_completion_witness :
    (handleSubmitRequest asciiHost [{ name := "subject", valid := true }]
      (.resolved { status := 201, body := .object none }) (.rejected "offline")
      State.initial).1.isSubmitting = false ∧
    (handleSubmitRequest asciiHost [{ name := "subject", valid := true }]
      (.resolved { status := 201, body := .object none }) (.rejected "offline")
      State.initial).1.isLoading = false ∧
    (loadServiceRequests asciiHost (.rejected "offline") State.initial).1.isLoading = false :=
  have hw := flags_down_after_completion asciiHost [{ name := "subject", valid := true }]
    (.rejected "offline") (.resolved { status := 201, body := .object none })
    (.rejected "offline") State.initial ⟨rfl, rfl⟩
  ⟨hw.2.2.1, hw.2.2.2, hw.1⟩

/-! ## The caches along any run -/

/-- The GET calls of a concatenated trace. -/
theorem listFetches_append (fx fx' : List Effect) :
    listFetches (fx ++ fx') = listFetches fx ++ listFetches fx' := by
  simp [listFetches, List.filterMap_append]

/-- Effects without a GET do not change which list fetch is the most recent. -/
theorem lastListFetchFailed_append_of_nil (fx fx' : List Effect)
    (hnone : listFetches fx' = []) :
    lastListFetchFailed (fx ++ fx') = lastListFetchFailed fx := by
  simp [lastListFetchFailed, listFetches_append, hnone]

/-- After effects with one GET, that GET is the most recent list fetch. -/
theorem lastListFetchFailed_append_of_single (fx fx' : List Effect) (get : FetchResult)
    (hone : listFetches fx' = [get]) :
    lastListFetchFailed (fx ++ fx') = get.failed := by
  simp [lastListFetchFailed, listFetches_append, hone]

/-- After `loadServiceRequests` the caches are `null` exactly when its GET
failed. -/
theorem loadServiceRequests_cachesAgree (h : Host) (get : FetchResult) (s : State) :
    CachesAgree (loadServiceRequests h get s).1 get.failed := by
  unfold CachesAgree FetchResult.failed loadServiceRequests
  rcases get with error | response
  · simp [loadCatch]
  · by_cases hok : response.ok = true <;>
      rcases hb : response.body with _ | _ | data | message <;>
        simp [hok, hb, Body.json, loadCatch]

/-- Resetting the two flags does not touch the caches. -/
theorem cachesAgree_of_caches_eq (s t : State) (failed : Bool)
    (hall : t.allServiceRequests = s.allServiceRequests)
    (hshown : t.serviceRequests = s.serviceRequests) (hs : CachesAgree s failed) :
    CachesAgree t failed := by
  unfold CachesAgree at hs ⊢
  rw [hall, hshown]
  exact hs

/-- The filter keeps the caches both `null` or both lists. -/
theorem onClickSearch_cachesAgree (h : Host) (s : State) (failed : Bool)
    (hs : CachesAgree s failed) : CachesAgree (onClickSearch h s) failed := by
  unfold CachesAgree at hs ⊢
  unfold onClickSearch
  rcases hall : s.allServiceRequests with _ | all
  · simpa [hall] using hs
  · cases failed
    · by_cases ht : h.toLowerCase s.searchTerm = "" <;> simp [ht, hall]
    · simp [hall] at hs

/-- One operation either issues no GET and keeps the caches both `null` or both
lists, or issues one GET and leaves the caches `null` exactly when it failed. -/
theorem runOp_cachesAgree (h : Host) (op : Op) (s : State) (failed : Bool)
    (hs : CachesAgree s failed) :
    (listFetches (runOp h op s).2 = [] ∧ CachesAgree (runOp h op s).1 failed) ∨
    (∃ get, listFetches (runOp h op s).2 = [get] ∧
      CachesAgree (runOp h op s).1 get.failed) := by
  cases op with
  | connectedCallback session get =>
    cases session with
    | none => exact Or.inl ⟨by simp [runOp, connectedCallback, listFetches], hs⟩
    | some sessionId =>
      exact Or.inr ⟨get, (loadServiceRequests_httpCalls h get _).2,
        loadServiceRequests_cachesAgree h get _⟩
  | loadServiceRequests get =>
    exact Or.inr ⟨get, (loadServiceRequests_httpCalls h get s).2,
      loadServiceRequests_cachesAgree h get s⟩
  | handleInputChange name value =>
    refine Or.inl ⟨by simp [runOp, listFetches], ?_⟩
    apply cachesAgree_of_caches_eq s _ failed _ _ hs <;>
      · simp only [runOp, handleInputChange]
        split_ifs <;> rfl
  | handleSearchChange value =>
    refine Or.inl ⟨by simp [runOp, listFetches], ?_⟩
    exact onClickSearch_cachesAgree h _ failed
      (cachesAgree_of_caches_eq s _ failed rfl rfl hs)
  | onClickSearch =>
    exact Or.inl ⟨by simp [runOp, listFetches], onClickSearch_cachesAgree h s failed hs⟩
  | handleSubmitRequest inputs post reload =>
    simp only [runOp]
    by_cases hfailed : (validateInputs inputs).1 = false ∨ PostFailed post ∨
        ∃ response, post = .resolved response ∧ response.body = .null
    · have hw := handleSubmitRequest_without_reload h inputs post reload s hfailed
      exact Or.inl ⟨hw.2.2.2.2.1, cachesAgree_of_caches_eq s _ failed hw.2.2.1 hw.2.2.2.1 hs⟩
    · have hflag : (validateInputs inputs).1 = true := by
        cases hv : (validateInputs inputs).1
        · exact absurd (Or.inl hv) hfailed
        · rfl
      rcases post with error | response
      · exact absurd (Or.inr (Or.inl trivial)) hfailed
      · have hok : response.ok = true := by
          cases hr : response.ok
          · exact absurd (Or.inr (Or.inl (Or.inl hr))) hfailed
          · rfl
        have hdata : ∃ data message, response.body.json = some data ∧
            data.message = some message := by
          rcases hb : response.body with _ | _ | records | m
          · exact absurd (Or.inr (Or.inl (Or.inr (by simp [hb, Body.json])))) hfailed
          · exact absurd (Or.inr (Or.inr ⟨response, rfl, hb⟩)) hfailed
          · exact ⟨.requests records, none, rfl, rfl⟩
          · exact ⟨.object m, m, rfl, rfl⟩
        obtain ⟨data, message, hj, hm⟩ := hdata
        have hrun := handleSubmitRequest_with_reload h inputs response data message reload s
          hflag hok hj hm
        refine Or.inr ⟨reload, ?_, ?_⟩
        · rw [hrun]
          simp only [listFetches_append, validateInputs_listFetches]
          have hl := (loadServiceRequests_httpCalls h reload
            { s with isSubmitting := true, isLoading := true, subject := "",
                     description := "" }).2
          simp only [listFetches] at hl ⊢
          simp [hl]
        · rw [hrun]
          exact cachesAgree_of_caches_eq _ _ _ rfl rfl
            (loadServiceRequests_cachesAgree h reload
              { s with isSubmitting := true, isLoading := true, subject := "",
                       description := "" })

/-- The caches agree with the most recent list fetch along any run that starts
from a state and a trace where they do. -/
theorem foldl_runOp_cachesAgree (h : Host) (ops : List Op) (acc : State × List Effect)
    (hacc : CachesAgree acc.1 (lastListFetchFailed acc.2)) :
    CachesAgree
      (ops.foldl (fun acc op => ((runOp h op acc.1).1, acc.2 ++ (runOp h op acc.1).2)) acc).1
      (lastListFetchFailed
        (ops.foldl (fun acc op => ((runOp h op acc.1).1, acc.2 ++ (runOp h op acc.1).2))
          acc).2) := by
  induction ops generalizing acc with
  | nil => exact hacc
  | cons op rest ih =>
    simp only [List.foldl_cons]
    apply ih
    rcases runOp_cachesAgree h op acc.1 _ hacc with ⟨hnone, hs⟩ | ⟨get, hone, hs⟩
    · simpa [lastListFetchFailed_append_of_nil acc.2 _ hnone] using hs
    · simpa [lastListFetchFailed_append_of_single acc.2 _ get hone] using hs

/-- The three causes the specification names are failures of the list fetch. -/
theorem failed_of_failedAsClaimed (get : FetchResult)
    (hget : get.failedAsClaimed = true) : get.failed = true := by
  unfold FetchResult.failedAsClaimed at hget
  unfold FetchResult.failed
  rcases get with error | response
  · rfl
  · rcases hb : response.body with _ | _ | data | message <;> simp_all

/-- The same for the most recent list fetch of a trace. -/
theorem lastListFetchFailed_of_asClaimed (fx : List Effect)
    (hfx : lastListFetchFailedAsClaimed fx = true) : lastListFetchFailed fx = true := by
  unfold lastListFetchFailedAsClaimed at hfx
  unfold lastListFetchFailed
  rcases hl : (listFetches fx).getLast? with _ | get
  · simp [hl] at hfx
  · rw [hl] at hfx
    exact failed_of_failedAsClaimed get hfx

/-- C4, as amended: after any sequence of completed operations from the initial
state, the two caches are both `null` exactly when the most recent list fetch
did not deliver a list (a non-2xx response, a network error, malformed JSON, or
a 2xx response whose JSON body is not an array of records), and are both lists
otherwise, also when no list fetch has run; the two caches are never one `null`
and one a list; in particular both are `null` after each of the three causes
the specification names. -/
theorem caches_null_iff_last_fetch_failed (h : Host) (ops : List Op) :
    (((runOps h ops State.initial).1.allServiceRequests = none ∧
        (runOps h ops State.initial).1.serviceRequests = none) ↔
      lastListFetchFailed (runOps h ops State.initial).2 = true) ∧
    (lastListFetchFailed (runOps h ops State.initial).2 = false →
      ∃ full displayed : List Request,
        (runOps h ops State.initial).1.allServiceRequests = some full ∧
        (runOps h ops State.initial).1.serviceRequests = some displayed) ∧
    ((runOps h ops State.initial).1.allServiceRequests = none ↔
      (runOps h ops State.initial).1.serviceRequests = none) ∧
    (lastListFetchFailedAsClaimed (runOps h ops State.initial).2 = true →
      (runOps h ops State.initial).1.allServiceRequests = none ∧
      (runOps h ops State.initial).1.serviceRequests = none) := by
  have hinv : CachesAgree (runOps h ops State.initial).1
      (lastListFetchFailed (runOps h ops State.initial).2) :=
    foldl_runOp_cachesAgree h ops (State.initial, [])
      (by simp [CachesAgree, lastListFetchFailed, listFetches, State.initial])
  have hclaimed := lastListFetchFailed_of_asClaimed (runOps h ops State.initial).2
  unfold CachesAgree at hinv
  cases hf : lastListFetchFailed (runOps h ops State.initial).2
  · rw [hf] at hinv hclaimed
    simp only [Bool.false_eq_true, if_false] at hinv
    obtain ⟨full, hfull⟩ := Option.isSome_iff_exists.1 hinv.1
    obtain ⟨displayed, hdisplayed⟩ := Option.isSome_iff_exists.1 hinv.2
    refine ⟨by simp [hfull], fun _ => ⟨full, displayed, hfull, hdisplayed⟩,
      by simp [hfull, hdisplayed], fun hc => ?_⟩
    exact absurd (hclaimed hc) (by decide)
  · rw [hf] at hinv
    simp only [if_true] at hinv
    simp [hinv.1, hinv.2]

/-- A run that loads, fails to load, filters, and then reloads through a
successful submission: the caches are `null` after the failed load and lists
at the end. -/
theorem caches_null_iff_last_fetch_failed_witness :
    (runOps asciiHost
      [.loadServiceRequests (.resolved { status := 200, body := .requests [] }),
        .loadServiceRequests (.resolved { status := 500, body := .object (some "db down") }),
        .handleSearchChange "toner"]
      State.initial).1.allServiceRequests = none ∧
    (runOps asciiHost
      [.loadServiceRequests (.resolved { status := 200, body := .requests [] }),
        .loadServiceRequests (.resolved { status := 500, body := .object (some "db down") }),
        .handleSearchChange "toner"]
      State.initial).1.serviceRequests = none ∧
    ∃ full displayed : List Request,
      (runOps asciiHost
        [.loadServiceRequests (.rejected "offline"),
          .handleSubmitRequest [{ name := "subject", valid := true }]
            (.resolved { status := 200, body := .object none })
            (.resolved { status := 200, body := .requests [] })]
        State.initial).1.allServiceRequests = some full ∧
      (runOps asciiHost
        [.loadServiceRequests (.rejected "offline"),
          .handleSubmitRequest [{ name := "subject", valid := true }]
            (.resolved { status := 200, body := .object none })
            (.resolved { status := 200, body := .requests [] })]
        State.initial).1.serviceRequests = some displayed :=
  have hfailed := ((caches_null_iff_last_fetch_failed asciiHost
    [.loadServiceRequests (.resolved { status := 200, body := .requests [] }),
      .loadServiceRequests (.resolved { status := 500, body := .object (some "db down") }),
      .handleSearchChange "toner"]).1).2 (by decide)
  ⟨hfailed.1, hfailed.2,
    (caches_null_iff_last_fetch_failed asciiHost
      [.loadServiceRequests (.rejected "offline"),
        .handleSubmitRequest [{ name := "subject", valid := true }]
          (.resolved { status := 200, body := .object none })
          (.resolved { status := 200, body := .requests [] })]).2.1 (by decide)⟩

/-- C4, as stated, fails after a GET answered with status 200 and the body
`{"message":"hello"}`: the response is 2xx, the call was not rejected and the
body is well-formed JSON, so none of the three named causes holds, yet
`data.map` on line 72 throws and the `catch` block of lines 93-95 sets both
caches to `null`. -/
theorem caches_null_after_wellformed_non_array :
    lastListFetchFailedAsClaimed
      (runOps asciiHost
        [.loadServiceRequests (.resolved { status := 200, body := .object (some "hello") })]
        State.initial).2 = false ∧
    (runOps asciiHost
      [.loadServiceRequests (.resolved { status := 200, body := .object (some "hello") })]
      State.initial).1.allServiceRequests = none ∧
    (runOps asciiHost
      [.loadServiceRequests (.resolved { status := 200, body := .object (some "hello") })]
      State.initial).1.serviceRequests = none := by
  decide

end ServiceRequestForm
